import Mathlib

/-!
Verification of the CAWS client module (`src/shared/clients/cawsClient.ts`):
pagination-to-sequence listings, session verification, credential updates,
and the workspace-start polling state machine.

Remote calls are modelled by passing the sequence of remote outcomes as
explicit data: a fetch outcome is `Except Unit α`, with `Except.error`
standing for a rejected request. Optional response fields are `Option`,
with `none` standing for an absent key on the wire object.
-/

namespace Caws

/-- Equality of remote outcomes is decidable componentwise. -/
instance {ε α : Type} [DecidableEq ε] [DecidableEq α] :
    DecidableEq (Except ε α) := fun a b =>
  match a, b with
  | .error x, .error y =>
    if h : x = y then .isTrue (by rw [h])
    else .isFalse (by intro hc; cases hc; exact h rfl)
  | .error _, .ok _ => .isFalse (by intro hc; cases hc)
  | .ok _, .error _ => .isFalse (by intro hc; cases hc)
  | .ok x, .ok y =>
    if h : x = y then .isTrue (by rw [h])
    else .isFalse (by intro hc; cases hc; exact h rfl)

/-- One field subject to a TS object-spread: the literal supplies `base`,
then `...obj` overrides it whenever the key is present on `obj`. -/
def spreadString (base : String) (override : Option String) : String :=
  override.getD base

/-- `OrganizationSummary` wire shape: `id` and `name` are not guaranteed. -/
structure OrganizationSummary where
  id : Option String
  name : Option String
deriving DecidableEq, Repr

/-- `ProjectSummary` wire shape. -/
structure ProjectSummary where
  id : Option String
  name : Option String
deriving DecidableEq, Repr

/-- `SourceRepositorySummary` wire shape. -/
structure RepoSummary where
  id : Option String
  name : Option String
deriving DecidableEq, Repr

/-- `DevelopmentWorkspaceSummary` wire shape: `id` and `status` optional. -/
structure DevelopmentWorkspaceSummary where
  id : Option String
  status : Option String
deriving DecidableEq, Repr

/-- `CawsOrg` record produced by the listing (keys always present). -/
structure CawsOrg where
  id : String
  name : String
deriving DecidableEq, Repr

/-- `CawsProject` record produced by the listing. -/
structure CawsProject where
  id : String
  orgName : String
  name : String
deriving DecidableEq, Repr

/-- `CawsRepo` record produced by the listing. -/
structure CawsRepo where
  id : String
  orgName : String
  projectName : String
  name : String
deriving DecidableEq, Repr

/-- `DevelopmentWorkspace`: `intoDevelopmentWorkspace` spreads the summary
over the literal, so `id` and `status` stay exactly as the summary had
them, with no defaulting. -/
structure DevelopmentWorkspace where
  orgName : String
  projectName : String
  id : Option String
  status : Option String
deriving DecidableEq, Repr

/-- `intoDevelopmentWorkspace(organizationName, projectName, summary)`:
object literal with `type`, `org`, `project` then `...summary`. -/
def intoDevelopmentWorkspace (organizationName projectName : String)
    (summary : DevelopmentWorkspaceSummary) : DevelopmentWorkspace :=
  { orgName := organizationName
    projectName := projectName
    id := summary.id
    status := summary.status }

/-- `asCawsOrg(org)` from `listOrgs`:
`\x7b id: '', type: 'org', name: org.name ?? 'unknown', ...org \x7d`. -/
def asCawsOrg (org : OrganizationSummary) : CawsOrg :=
  { id := spreadString "" org.id
    name := spreadString (org.name.getD "unknown") org.name }

/-- A single remote page: items plus an optional continuation token. -/
structure PageResp (α : Type) where
  items : List α
  nextToken : Option String
deriving DecidableEq, Repr

/-- `call(req, silent, defaultVal)`: on success resolve the data; on a
remote error, a silent call resolves `defaultVal` when one was given and
itself throws otherwise, while a non-silent call rejects with the error. -/
def call (result : Except Unit α) (silent : Bool) (defaultVal : Option α) :
    Except Unit α :=
  match result with
  | .ok d => .ok d
  | .error e =>
    if silent then
      match defaultVal with
      | some v => .ok v
      | none => .error ()
    else .error e

/-- Modelled from the spec: `pageableToCollection` from `collectionUtils`
(not under `src/`) turns a page requester into a lazy sequence of item
batches, fetching pages one at a time and stopping when a page omits the
continuation token. The argument list gives the remote outcome of each
successive page request; each requester call is the silent `call` with
default `\x7b items: [] \x7d`, exactly as in the four listing operations. -/
def listPages : List (Except Unit (PageResp α)) → List (List α)
  | [] => []
  | o :: rest =>
    match call o true (some ⟨[], none⟩) with
    | .ok page =>
      page.items ::
        (match page.nextToken with
         | some _ => listPages rest
         | none => [])
    | .error _ => []

/-- `listOrgs`: page batches post-processed through `asCawsOrg`. -/
def listOrgs (outcomes : List (Except Unit (PageResp OrganizationSummary))) :
    List (List CawsOrg) :=
  (listPages outcomes).map fun summaries => summaries.map asCawsOrg

/-- `listProjects`: batches mapped into `CawsProject` records; the literal
supplies `id: ''` and `name: s.name ?? 'unknown'`, then `...s` overrides. -/
def listProjects (organizationName : String)
    (outcomes : List (Except Unit (PageResp ProjectSummary))) :
    List (List CawsProject) :=
  (listPages outcomes).map fun summaries =>
    summaries.map fun s =>
      { id := spreadString "" s.id
        orgName := organizationName
        name := spreadString (s.name.getD "unknown") s.name }

/-- `listRepos`: batches mapped into `CawsRepo` records, same defaulting. -/
def listRepos (organizationName projectName : String)
    (outcomes : List (Except Unit (PageResp RepoSummary))) :
    List (List CawsRepo) :=
  (listPages outcomes).map fun summaries =>
    summaries.map fun s =>
      { id := spreadString "" s.id
        orgName := organizationName
        projectName := projectName
        name := spreadString (s.name.getD "unknown") s.name }

/-- `listDevEnvs(proj)`: batches mapped through `intoDevelopmentWorkspace`
with the org and project names of `proj`; no `id` or `name` defaulting. -/
def listDevEnvs (proj : CawsProject)
    (outcomes : List (Except Unit (PageResp DevelopmentWorkspaceSummary))) :
    List (List DevelopmentWorkspace) :=
  (listPages outcomes).map fun envs =>
    envs.map fun s => intoDevelopmentWorkspace proj.orgName proj.name s

/-- `CawsBranch` record (branch listing is unsupported by the client). -/
structure CawsBranch where
  name : String
  repoName : String
deriving DecidableEq, Repr

/-- The `CawsResource` tagged union, discriminated by the `type` tag. -/
inductive CawsResource where
  | org (o : CawsOrg)
  | project (p : CawsProject)
  | repo (r : CawsRepo)
  | branch (b : CawsBranch)
  | env (w : DevelopmentWorkspace)
deriving DecidableEq, Repr

/-- The `type` tags accepted by `listResources`. -/
inductive ResourceType where
  | org
  | project
  | repo
  | branch
  | env
deriving DecidableEq, Repr

/-- Remote data backing the listing operations: for each listing request
the sequence of page-fetch outcomes the service returns. -/
structure RemoteEnv where
  orgPages : List (Except Unit (PageResp OrganizationSummary))
  projectPages : String → List (Except Unit (PageResp ProjectSummary))
  repoPages : String → String → List (Except Unit (PageResp RepoSummary))
  envPages : String → String →
    List (Except Unit (PageResp DevelopmentWorkspaceSummary))

/-- A remote environment with no data, used to state environment
independence of the unsupported branch case. -/
def RemoteEnv.empty : RemoteEnv :=
  { orgPages := []
    projectPages := fun _ => []
    repoPages := fun _ _ => []
    envPages := fun _ _ => [] }

/-- Modelled from the spec: `mapInner` over `AsyncCollection` (from
`asyncCollection`, not under `src/`): for each element of each outer
batch, the inner sequence is flattened into one batch and yielded, in
element order within a batch. -/
def mapInner (outer : List (List α)) (f : α → List (List β)) :
    List (List β) :=
  outer.flatMap fun batch => batch.map fun e => (f e).flatten

/-- Height of a resource type in the org to project to repo or workspace
join, used as the termination measure of `listResources`. -/
def ResourceType.rank : ResourceType → Nat
  | .org => 0
  | .branch => 0
  | .project => 1
  | .repo => 2
  | .env => 2

/-- `listResources(resourceType)`: the recursive dispatcher. `org` lists
directly; `project`, `repo` and `env` join over the parent enumeration
with `mapInner`; `branch` throws before touching the remote service. -/
def listResources (env : RemoteEnv) :
    ResourceType → Except String (List (List CawsResource))
  | .org => .ok ((listOrgs env.orgPages).map fun b => b.map .org)
  | .project =>
    match listResources env .org with
    | .error e => .error e
    | .ok orgs =>
      .ok (mapInner orgs fun r =>
        match r with
        | .org o =>
          (listProjects o.name (env.projectPages o.name)).map fun b =>
            b.map .project
        | _ => [])
  | .repo =>
    match listResources env .project with
    | .error e => .error e
    | .ok projects =>
      .ok (mapInner projects fun r =>
        match r with
        | .project p =>
          (listRepos p.orgName p.name
              (env.repoPages p.orgName p.name)).map fun b => b.map .repo
        | _ => [])
  | .branch => .error "Listing branches is not currently supported"
  | .env =>
    match listResources env .project with
    | .error e => .error e
    | .ok projects =>
      .ok (mapInner projects fun r =>
        match r with
        | .project p =>
          (listDevEnvs p (env.envPages p.orgName p.name)).map fun b =>
            b.map .env
        | _ => [])
termination_by t => t.rank
decreasing_by all_goals simp [ResourceType.rank]

/-- `UserDetails`: the four required fields plus the schema version,
which must be the literal string 1. -/
structure UserDetails where
  userId : String
  userName : String
  displayName : String
  primaryEmail : String
  version : String
deriving DecidableEq, Repr

/-- `GetUserDetailsResponse` wire shape: every field optional. -/
structure GetUserDetailsResponse where
  userId : Option String
  userName : Option String
  displayName : Option String
  primaryEmail : Option String
  version : Option String
deriving DecidableEq, Repr

/-- `VerifySessionResponse` wire shape: the `identity` field optional. -/
structure VerifySessionResponse where
  identity : Option String
deriving DecidableEq, Repr

/-- Errors surfaced by the session operations. -/
inductive SessionError where
  | remote
  | validation (field : String)
  | identityMismatch
  | unsupportedVersion (v : Option String)
deriving DecidableEq, Repr

/-- The transport binding built by `createCawsClient`: it carries the
bearer token installed on every outgoing request. -/
structure SdkClient where
  bearerToken : Option String
deriving DecidableEq, Repr

/-- `createCawsClient(bearerToken, ...)`: rebuilds the transport binding
around the given token. -/
def createCawsClient (bearerToken : Option String) : SdkClient :=
  { bearerToken := bearerToken }

/-- The mutable fields of `CawsClientInternal`. -/
structure ClientState where
  regionCode : String
  endpoint : String
  sdkClient : SdkClient
  bearerToken : Option String
  userId : Option String
  userDetails : Option UserDetails
deriving DecidableEq, Repr

/-- The `connected` getter: `!!(this.bearerToken && this.userDetails)`;
an absent or empty token is falsy. -/
def connected (st : ClientState) : Bool :=
  (match st.bearerToken with
   | some t => decide (t ≠ "")
   | none => false) && st.userDetails.isSome

/-- The `identity` getter: throws when no `userDetails` are cached
(`none` here), else exposes the cached id and name. -/
def identity (st : ClientState) : Option (String × String) :=
  st.userDetails.map fun d => (d.userId, d.userName)

/-- The second argument of `setCredentials`: absent, a raw id string, or
a full details record. -/
inductive IdArg where
  | none
  | str (s : String)
  | details (d : UserDetails)
deriving DecidableEq, Repr

/-- `setCredentials(bearerToken, id)`: store the token, rebuild the
transport binding, then either store the raw id into `userId` (when `id`
is a string) or assign `userDetails := id` (a record, or `undefined` when
the argument was omitted). -/
def setCredentials (st : ClientState) (bearerToken : String)
    (id : IdArg) : ClientState :=
  let st1 := { st with
    bearerToken := some bearerToken
    sdkClient := createCawsClient (some bearerToken) }
  match id with
  | .str s => { st1 with userId := some s }
  | .details d => { st1 with userDetails := some d }
  | .none => { st1 with userDetails := Option.none }

/-- Modelled from the spec: `assertHasProps` from `tsUtils` (not under
`src/`) requires the response to contain the named field and fails with a
validation error otherwise. -/
def assertHasProp (o : Option α) (field : String) : Except SessionError α :=
  match o with
  | some v => .ok v
  | none => .error (.validation field)

/-- `getUserDetails(args)` given the remote outcome: a non-silent `call`,
then `assertHasProps` on the four required fields, then the version
check `resp.version !== '1'`. -/
def getUserDetails (resp : Except Unit GetUserDetailsResponse) :
    Except SessionError UserDetails :=
  match call resp false Option.none with
  | .error _ => .error .remote
  | .ok r =>
    match assertHasProp r.userId "userId" with
    | .error e => .error e
    | .ok uid =>
      match assertHasProp r.userName "userName" with
      | .error e => .error e
      | .ok uname =>
        match assertHasProp r.displayName "displayName" with
        | .error e => .error e
        | .ok dname =>
          match assertHasProp r.primaryEmail "primaryEmail" with
          | .error e => .error e
          | .ok email =>
            if r.version ≠ some "1" then
              .error (.unsupportedVersion r.version)
            else
              .ok { userId := uid, userName := uname,
                    displayName := dname, primaryEmail := email,
                    version := "1" }

/-- Result of one `verifySession` run: the returned value or thrown
error, the mutated client state, and whether a remote user-details fetch
was issued. -/
structure VerifyRun where
  result : Except SessionError UserDetails
  state : ClientState
  detailsFetched : Bool
deriving DecidableEq, Repr

/-- `verifySession()` given the outcomes of the identity check and of a
possible user-details fetch. The mismatch guard is
`this.userId && this.userId !== resp.identity` (an empty bound id is
falsy and skips the guard); the bound id is only assigned after the
guard, and `userDetails ??=` fetches details only when none are cached. -/
def verifySession (st : ClientState)
    (vresp : Except Unit VerifySessionResponse)
    (dresp : Except Unit GetUserDetailsResponse) : VerifyRun :=
  match call vresp false Option.none with
  | .error _ => ⟨.error .remote, st, false⟩
  | .ok r =>
    match assertHasProp r.identity "identity" with
    | .error e => ⟨.error e, st, false⟩
    | .ok ident =>
      if (match st.userId with
          | some u => decide (u ≠ "") && decide (u ≠ ident)
          | none => false) then
        ⟨.error .identityMismatch, st, false⟩
      else
        let st1 := { st with userId := some ident }
        match st1.userDetails with
        | some d => ⟨.ok d, st1, false⟩
        | none =>
          match getUserDetails dresp with
          | .error e => ⟨.error e, st1, true⟩
          | .ok d => ⟨.ok d, { st1 with userDetails := some d }, true⟩

/-- How one run of the polling loop ends: the workspace was observed
`RUNNING`, the loop body threw, or the fetch schedule ran out before
either (the timeout or cancellation interrupted the race). -/
inductive PollOutcome where
  | found (env : DevelopmentWorkspace)
  | fatalError (msg : String)
  | exhausted (lastStatus : Option String)
deriving DecidableEq, Repr

/-- A polling-loop run: its terminal outcome, the number of start
commands issued, and the number of status fetches consumed. -/
structure LoopRes where
  outcome : PollOutcome
  starts : Nat
  used : Nat
deriving DecidableEq, Repr

/-- The `waitUntil` callback of `startEnvironmentWithProgress`, iterated
over the scheduled fetch outcomes. Each iteration fetches the workspace
(a rejected fetch propagates as a thrown error), aborts when the last
observed status was `STARTING` and the fresh one is `STOPPED` or
`STOPPING`, issues a start command on `STOPPED`, updates `lastStatus`,
and stops successfully on `RUNNING`. -/
def pollLoop : List (Except Unit DevelopmentWorkspace) → Option String →
    LoopRes
  | [], lastStatus => ⟨.exhausted lastStatus, 0, 0⟩
  | f :: rest, lastStatus =>
    match f with
    | .error _ => ⟨.fatalError "fetch", 0, 1⟩
    | .ok resp =>
      if lastStatus = some "STARTING" ∧
          (resp.status = some "STOPPED" ∨ resp.status = some "STOPPING")
      then ⟨.fatalError "Evironment failed to start", 0, 1⟩
      else
        let starts := if resp.status = some "STOPPED" then 1 else 0
        if resp.status = some "RUNNING" then ⟨.found resp, starts, 1⟩
        else
          let r := pollLoop rest resp.status
          ⟨r.outcome, starts + r.starts, r.used + 1⟩

/-- Which event ends the `waitTimeout` race when the loop never reaches
`RUNNING` and never throws: overall timeout expiry, or the user pressing
cancel. -/
inductive Interrupt where
  | expire
  | cancel
deriving DecidableEq, Repr

/-- Terminal outcome of `startEnvironmentWithProgress`: the workspace on
success, a thrown error, or resolution to `undefined`. -/
inductive StartOutcome where
  | success (env : DevelopmentWorkspace)
  | fatal (msg : String)
  | noResult
deriving DecidableEq, Repr

/-- One run of `startEnvironmentWithProgress`: outcome, start commands
issued, polling-loop fetches consumed, and whether the timeout error
notification was shown. -/
structure StartRun where
  outcome : StartOutcome
  starts : Nat
  loopFetches : Nat
  errorNotified : Bool
deriving DecidableEq, Repr

/-- `lastStatus` after the initial guarded fetch: the fetched status on
success, `undefined` when the fetch threw (the catch block). -/
def initStatus : Except Unit DevelopmentWorkspace → Option String
  | .ok env => env.status
  | .error _ => none

/-- Modelled from the spec: the `waitTimeout` race from `timeoutUtils`
(not under `src/`). A loop that found `RUNNING` resolves the workspace; a
thrown loop error propagates; an interrupted loop resolves `undefined`,
with the error notification shown exactly on timeout expiry (`onExpire`)
and not on cancellation (`onCancel`). -/
def finishRun (r : LoopRes) (intr : Interrupt) : StartRun :=
  match r.outcome with
  | .found env => ⟨.success env, r.starts, r.used, false⟩
  | .fatalError m => ⟨.fatal m, r.starts, r.used, false⟩
  | .exhausted _ =>
    match intr with
    | .expire => ⟨.noResult, r.starts, r.used, true⟩
    | .cancel => ⟨.noResult, r.starts, r.used, false⟩

/-- `startEnvironmentWithProgress(args, status, timeout)`: initial
guarded fetch with the `RUNNING` debounce, then the polling loop raced
against the timeout. `initial` is the outcome of the initial fetch,
`polls` the outcomes of the successive loop fetches that happen before
the race is interrupted, and `intr` the interrupting event used when the
loop is never resolved by `RUNNING` or a throw. -/
def startEnvironmentWithProgress (targetStatus : String)
    (initial : Except Unit DevelopmentWorkspace)
    (polls : List (Except Unit DevelopmentWorkspace))
    (intr : Interrupt) : StartRun :=
  match initial with
  | .ok env =>
    if targetStatus = "RUNNING" ∧ env.status = some "RUNNING" then
      ⟨.success env, 0, 0, false⟩
    else finishRun (pollLoop polls (initStatus initial)) intr
  | .error _ => finishRun (pollLoop polls (initStatus initial)) intr

/-- Sample workspace used by concrete witnesses. -/
def sampleWs (s : String) : DevelopmentWorkspace :=
  { orgName := "org1", projectName := "proj1"
    id := some "ws1", status := some s }

/-- Sample project used by concrete witnesses. -/
def sampleProj : CawsProject :=
  { id := "p1", orgName := "org1", name := "proj1" }

/-- Splitting a polling schedule: when the loop exhausts a prefix, the
run over the full schedule continues from the prefix state, adding up
start commands and fetches. -/
theorem pollLoop_append_exhausted
    (a : List (Except Unit DevelopmentWorkspace))
    {b : List (Except Unit DevelopmentWorkspace)}
    {last l : Option String} {s n : Nat}
    (h : pollLoop a last = ⟨.exhausted l, s, n⟩) :
    pollLoop (a ++ b) last =
      ⟨(pollLoop b l).outcome, s + (pollLoop b l).starts,
        n + (pollLoop b l).used⟩ := by
  induction a generalizing last s n with
  | nil =>
    simp only [pollLoop] at h
    cases h
    simp [pollLoop]
  | cons f rest ih =>
    match f with
    | .error u =>
      simp only [pollLoop] at h
      cases h
    | .ok resp =>
      simp only [List.cons_append, pollLoop] at h ⊢
      by_cases hreg : last = some "STARTING" ∧
          (resp.status = some "STOPPED" ∨ resp.status = some "STOPPING")
      · rw [if_pos hreg] at h
        cases h
      · rw [if_neg hreg] at h ⊢
        by_cases hrun : resp.status = some "RUNNING"
        · rw [if_pos hrun] at h
          cases h
        · rw [if_neg hrun] at h ⊢
          rcases hr : pollLoop rest resp.status with ⟨o, s1, n1⟩
          rw [hr, LoopRes.mk.injEq] at h
          obtain ⟨ho, hs, hn⟩ := h
          subst ho
          simp only at hs hn
          simp only [List.append_eq]
          rw [ih hr, LoopRes.mk.injEq]
          by_cases hstop : resp.status = some "STOPPED" <;>
            simp only [if_pos, if_neg, hstop, if_true, if_false] at hs ⊢ <;>
            refine ⟨trivial, ?_, ?_⟩ <;> omega

/-- Regression step: with `lastStatus = STARTING` and a fresh `STOPPED`
or `STOPPING` status, the loop throws at once, consuming one fetch and
issuing no start command, whatever fetches were still scheduled. -/
theorem pollLoop_regression
    (rest : List (Except Unit DevelopmentWorkspace))
    {w : DevelopmentWorkspace}
    (hw : w.status = some "STOPPED" ∨ w.status = some "STOPPING") :
    pollLoop (.ok w :: rest) (some "STARTING") =
      ⟨.fatalError "Evironment failed to start", 0, 1⟩ := by
  have hc : (some "STARTING" : Option String) = some "STARTING" ∧
      (w.status = some "STOPPED" ∨ w.status = some "STOPPING") := ⟨rfl, hw⟩
  simp only [pollLoop]
  rw [if_pos ⟨trivial, hw⟩]

/-- C1: in any run of `startEnvironmentWithProgress` that enters the
polling loop, once the loop has worked through a prefix of the schedule
ending with observed status `STARTING`, a fresh fetch returning a
workspace in `STOPPED` or `STOPPING` makes the whole operation throw the
explicit failed-to-start error; the remaining scheduled fetches are never
consumed, no start command is issued at or after the throw, and no
timeout notification is shown. -/
theorem startEnvironment_fatal_on_regression (target : String)
    (initial : Except Unit DevelopmentWorkspace)
    (pre rest : List (Except Unit DevelopmentWorkspace))
    (w : DevelopmentWorkspace) (intr : Interrupt) (s n : Nat)
    (hdeb : ¬(target = "RUNNING" ∧ initStatus initial = some "RUNNING"))
    (hpre : pollLoop pre (initStatus initial) =
      ⟨.exhausted (some "STARTING"), s, n⟩)
    (hw : w.status = some "STOPPED" ∨ w.status = some "STOPPING") :
    startEnvironmentWithProgress target initial (pre ++ .ok w :: rest)
        intr =
      ⟨.fatal "Evironment failed to start", s, n + 1, false⟩ := by
  have hfull := pollLoop_append_exhausted pre (b := .ok w :: rest) hpre
  rw [pollLoop_regression rest hw] at hfull
  have hfin : finishRun (pollLoop (pre ++ .ok w :: rest)
      (initStatus initial)) intr =
      ⟨.fatal "Evironment failed to start", s, n + 1, false⟩ := by
    rw [hfull]
    simp [finishRun]
  match initial with
  | .ok env =>
    have hne : ¬(target = "RUNNING" ∧ env.status = some "RUNNING") := hdeb
    simp only [startEnvironmentWithProgress, if_neg hne]
    exact hfin
  | .error u =>
    simp only [startEnvironmentWithProgress]
    exact hfin

/-- C1 witness: initial fetch observes `STARTING`, the first poll
observes `STOPPED`; the run throws at once. -/
theorem startEnvironment_fatal_on_regression_witness :
    (¬("env" = "RUNNING" ∧
        initStatus (.ok (sampleWs "STARTING")) = some "RUNNING")) ∧
    pollLoop [] (initStatus (.ok (sampleWs "STARTING"))) =
      ⟨.exhausted (some "STARTING"), 0, 0⟩ ∧
    ((sampleWs "STOPPED").status = some "STOPPED" ∨
      (sampleWs "STOPPED").status = some "STOPPING") ∧
    startEnvironmentWithProgress "env" (.ok (sampleWs "STARTING"))
        ([] ++ .ok (sampleWs "STOPPED") :: []) .expire =
      ⟨.fatal "Evironment failed to start", 0, 0 + 1, false⟩ :=
  ⟨by decide, by decide, by decide,
    startEnvironment_fatal_on_regression "env" (.ok (sampleWs "STARTING"))
      [] [] (sampleWs "STOPPED") .expire 0 0 (by decide) (by decide)
      (by decide)⟩

/-- C2 counterexample: a run whose successive status fetches observe
`STOPPED`, then `STARTING`, then `RUNNING` with target `RUNNING` does
return the `RUNNING` workspace, but issues zero start commands, because
the `STOPPED` observation happened on the initial guarded fetch, which
never issues a start command. -/
theorem startEnvironment_scenarioA_no_start :
    (startEnvironmentWithProgress "RUNNING" (.ok (sampleWs "STOPPED"))
        [.ok (sampleWs "STARTING"), .ok (sampleWs "RUNNING")]
        .expire).outcome = .success (sampleWs "RUNNING") ∧
    (startEnvironmentWithProgress "RUNNING" (.ok (sampleWs "STOPPED"))
        [.ok (sampleWs "STARTING"), .ok (sampleWs "RUNNING")]
        .expire).starts = 0 := by
  decide

/-- C2 amended: when the `STOPPED`, `STARTING`, `RUNNING` observations
are made by the polling loop (the initial guarded fetch having observed
neither `RUNNING` nor `STARTING`, or having failed), the run returns the
`RUNNING` workspace and issues exactly one start command, on the
`STOPPED` polling observation. -/
theorem startEnvironment_poll_stopped_starting_running
    (initial : Except Unit DevelopmentWorkspace)
    (e1 e2 e3 : DevelopmentWorkspace) (intr : Interrupt)
    (hdeb : initStatus initial ≠ some "RUNNING")
    (hst : initStatus initial ≠ some "STARTING")
    (h1 : e1.status = some "STOPPED")
    (h2 : e2.status = some "STARTING")
    (h3 : e3.status = some "RUNNING") :
    startEnvironmentWithProgress "RUNNING" initial
        [.ok e1, .ok e2, .ok e3] intr =
      ⟨.success e3, 1, 3, false⟩ := by
  have hloop : pollLoop [.ok e1, .ok e2, .ok e3] (initStatus initial) =
      ⟨.found e3, 1, 3⟩ := by
    simp [pollLoop, h1, h2, h3, hst]
  have hfin : finishRun (pollLoop [.ok e1, .ok e2, .ok e3]
      (initStatus initial)) intr = ⟨.success e3, 1, 3, false⟩ := by
    rw [hloop]
    simp [finishRun]
  match initial with
  | .ok env =>
    have henv : env.status ≠ some "RUNNING" := hdeb
    simp only [startEnvironmentWithProgress]
    rw [if_neg (by simp [henv])]
    exact hfin
  | .error u =>
    simp only [startEnvironmentWithProgress]
    exact hfin

/-- C2 amended witness: initial fetch fails, then the polls observe
`STOPPED`, `STARTING`, `RUNNING`; exactly one start command. -/
theorem startEnvironment_poll_stopped_starting_running_witness :
    (initStatus (Except.error ()) ≠ some "RUNNING") ∧
    (initStatus (Except.error ()) ≠ some "STARTING") ∧
    (sampleWs "STOPPED").status = some "STOPPED" ∧
    (sampleWs "STARTING").status = some "STARTING" ∧
    (sampleWs "RUNNING").status = some "RUNNING" ∧
    startEnvironmentWithProgress "RUNNING" (.error ())
        [.ok (sampleWs "STOPPED"), .ok (sampleWs "STARTING"),
          .ok (sampleWs "RUNNING")] .expire =
      ⟨.success (sampleWs "RUNNING"), 1, 3, false⟩ :=
  ⟨by decide, by decide, by decide, by decide, by decide,
    startEnvironment_poll_stopped_starting_running (.error ())
      (sampleWs "STOPPED") (sampleWs "STARTING") (sampleWs "RUNNING")
      .expire (by decide) (by decide) (by decide) (by decide) (by decide)⟩

/-- C3: a run that enters the polling loop and exhausts its schedule
without observing `RUNNING` and without a throw resolves to no result
rather than a thrown failure; the timeout-expiry interruption shows the
error notification, the cancellation interruption does not. -/
theorem startEnvironment_no_result_on_interrupt (target : String)
    (initial : Except Unit DevelopmentWorkspace)
    (polls : List (Except Unit DevelopmentWorkspace)) (intr : Interrupt)
    (l : Option String) (s n : Nat)
    (hdeb : ¬(target = "RUNNING" ∧ initStatus initial = some "RUNNING"))
    (hex : pollLoop polls (initStatus initial) = ⟨.exhausted l, s, n⟩) :
    startEnvironmentWithProgress target initial polls intr =
      ⟨.noResult, s, n, decide (intr = Interrupt.expire)⟩ := by
  have hfin : finishRun (pollLoop polls (initStatus initial)) intr =
      ⟨.noResult, s, n, decide (intr = Interrupt.expire)⟩ := by
    rw [hex]
    cases intr <;> simp [finishRun]
  match initial with
  | .ok env =>
    have hne : ¬(target = "RUNNING" ∧ env.status = some "RUNNING") := hdeb
    simp only [startEnvironmentWithProgress, if_neg hne]
    exact hfin
  | .error u =>
    simp only [startEnvironmentWithProgress]
    exact hfin

/-- C3 witness: the status stays `STARTING` for the whole schedule; on
expiry the run resolves to no result with the notification, on
cancellation to no result without it. -/
theorem startEnvironment_no_result_on_interrupt_witness :
    (¬("RUNNING" = "RUNNING" ∧
        initStatus (.ok (sampleWs "STARTING")) = some "RUNNING")) ∧
    pollLoop [.ok (sampleWs "STARTING")]
        (initStatus (.ok (sampleWs "STARTING"))) =
      ⟨.exhausted (some "STARTING"), 0, 1⟩ ∧
    startEnvironmentWithProgress "RUNNING" (.ok (sampleWs "STARTING"))
        [.ok (sampleWs "STARTING")] .expire =
      ⟨.noResult, 0, 1, decide ((Interrupt.expire) = Interrupt.expire)⟩ ∧
    startEnvironmentWithProgress "RUNNING" (.ok (sampleWs "STARTING"))
        [.ok (sampleWs "STARTING")] .cancel =
      ⟨.noResult, 0, 1, decide ((Interrupt.cancel) = Interrupt.expire)⟩ :=
  ⟨by decide, by decide,
    startEnvironment_no_result_on_interrupt "RUNNING"
      (.ok (sampleWs "STARTING")) [.ok (sampleWs "STARTING")] .expire
      (some "STARTING") 0 1 (by decide) (by decide),
    startEnvironment_no_result_on_interrupt "RUNNING"
      (.ok (sampleWs "STARTING")) [.ok (sampleWs "STARTING")] .cancel
      (some "STARTING") 0 1 (by decide) (by decide)⟩

/-- C4: when the target status is `RUNNING` and the initial fetch already
observes `RUNNING`, the run returns that workspace with zero polling
fetches and zero start commands, whatever was scheduled; and when the
initial fetch fails, the failure is not fatal: the run proceeds into the
polling loop with `lastStatus` unknown, consuming the schedule. -/
theorem startEnvironment_debounce_and_soft_initial_failure :
    (∀ (env : DevelopmentWorkspace)
        (polls : List (Except Unit DevelopmentWorkspace))
        (intr : Interrupt), env.status = some "RUNNING" →
      startEnvironmentWithProgress "RUNNING" (.ok env) polls intr =
        ⟨.success env, 0, 0, false⟩) ∧
    (∀ (target : String)
        (polls : List (Except Unit DevelopmentWorkspace))
        (intr : Interrupt),
      startEnvironmentWithProgress target (.error ()) polls intr =
        finishRun (pollLoop polls none) intr) := by
  constructor
  · intro env polls intr h
    simp only [startEnvironmentWithProgress]
    rw [if_pos (by simp [h])]
  · intro target polls intr
    simp only [startEnvironmentWithProgress, initStatus]

/-- C4 witness: a workspace already `RUNNING` returns immediately even
with a fatal-looking schedule pending; a failed initial fetch still
polls through the schedule. -/
theorem startEnvironment_debounce_and_soft_initial_failure_witness :
    (sampleWs "RUNNING").status = some "RUNNING" ∧
    startEnvironmentWithProgress "RUNNING" (.ok (sampleWs "RUNNING"))
        [.error ()] .expire = ⟨.success (sampleWs "RUNNING"), 0, 0, false⟩ ∧
    startEnvironmentWithProgress "RUNNING" (.error ())
        [.ok (sampleWs "RUNNING")] .expire =
      finishRun (pollLoop [.ok (sampleWs "RUNNING")] none) .expire :=
  ⟨by decide,
    startEnvironment_debounce_and_soft_initial_failure.1
      (sampleWs "RUNNING") [.error ()] .expire (by decide),
    startEnvironment_debounce_and_soft_initial_failure.2
      "RUNNING" [.ok (sampleWs "RUNNING")] .expire⟩

/-- Over a prefix of successful pages that all carry a continuation
token, the paginated listing yields exactly the item batches of those
pages, in order. -/
theorem listPages_ok_tokens {α : Type} (pre : List (PageResp α))
    (h : ∀ p ∈ pre, p.nextToken.isSome) :
    listPages (pre.map .ok) = pre.map (fun p => p.items) := by
  induction pre with
  | nil => simp [listPages]
  | cons p rest ih =>
    have hp : p.nextToken.isSome := h p (List.mem_cons_self p rest)
    obtain ⟨t, ht⟩ := Option.isSome_iff_exists.mp hp
    simp only [List.map_cons, listPages, call, ht]
    rw [ih (fun q hq => h q (List.mem_cons_of_mem p hq))]

/-- A page-fetch failure after a chain of token-carrying pages yields the
prior item batches followed by the substituted empty batch, and the
sequence terminates: later scheduled outcomes are never consumed. -/
theorem listPages_fail_soft {α : Type} (pre : List (PageResp α))
    (post : List (Except Unit (PageResp α)))
    (h : ∀ p ∈ pre, p.nextToken.isSome) :
    listPages (pre.map .ok ++ .error () :: post) =
      pre.map (fun p => p.items) ++ [[]] := by
  induction pre with
  | nil => simp [listPages, call]
  | cons p rest ih =>
    have hp : p.nextToken.isSome := h p (List.mem_cons_self p rest)
    obtain ⟨t, ht⟩ := Option.isSome_iff_exists.mp hp
    simp only [List.map_cons, List.cons_append, listPages, call, ht,
      List.append_eq]
    rw [ih (fun q hq => h q (List.mem_cons_of_mem p hq))]

/-- C5: for each of the four listing operations, a remote page-fetch
failure is not raised to the consumer: the listing equals the batches
produced before the failure followed by the substituted empty batch, and
the outcomes scheduled after the failure are never consumed. -/
theorem listings_fail_soft :
    (∀ (pre : List (PageResp OrganizationSummary))
        (post : List (Except Unit (PageResp OrganizationSummary))),
      (∀ p ∈ pre, p.nextToken.isSome) →
      listOrgs (pre.map .ok ++ .error () :: post) =
        listOrgs (pre.map .ok) ++ [[]]) ∧
    (∀ (orgName : String) (pre : List (PageResp ProjectSummary))
        (post : List (Except Unit (PageResp ProjectSummary))),
      (∀ p ∈ pre, p.nextToken.isSome) →
      listProjects orgName (pre.map .ok ++ .error () :: post) =
        listProjects orgName (pre.map .ok) ++ [[]]) ∧
    (∀ (orgName projName : String) (pre : List (PageResp RepoSummary))
        (post : List (Except Unit (PageResp RepoSummary))),
      (∀ p ∈ pre, p.nextToken.isSome) →
      listRepos orgName projName (pre.map .ok ++ .error () :: post) =
        listRepos orgName projName (pre.map .ok) ++ [[]]) ∧
    (∀ (proj : CawsProject)
        (pre : List (PageResp DevelopmentWorkspaceSummary))
        (post : List (Except Unit (PageResp DevelopmentWorkspaceSummary))),
      (∀ p ∈ pre, p.nextToken.isSome) →
      listDevEnvs proj (pre.map .ok ++ .error () :: post) =
        listDevEnvs proj (pre.map .ok) ++ [[]]) := by
  refine ⟨?_, ?_, ?_, ?_⟩
  · intro pre post h
    simp only [listOrgs, listPages_fail_soft pre post h,
      listPages_ok_tokens pre h, List.map_append]
    rfl
  · intro orgName pre post h
    simp only [listProjects, listPages_fail_soft pre post h,
      listPages_ok_tokens pre h, List.map_append]
    rfl
  · intro orgName projName pre post h
    simp only [listRepos, listPages_fail_soft pre post h,
      listPages_ok_tokens pre h, List.map_append]
    rfl
  · intro proj pre post h
    simp only [listDevEnvs, listPages_fail_soft pre post h,
      listPages_ok_tokens pre h, List.map_append]
    rfl

/-- C5 witness: one successful token-carrying page, then a failed fetch,
for each of the four listings. -/
theorem listings_fail_soft_witness :
    ((∀ p ∈ [(⟨[(⟨some "i", some "n"⟩ : OrganizationSummary)],
        some "t"⟩ : PageResp OrganizationSummary)], p.nextToken.isSome) ∧
      listOrgs ([(⟨[⟨some "i", some "n"⟩], some "t"⟩ :
          PageResp OrganizationSummary)].map .ok ++ .error () :: []) =
        listOrgs ([(⟨[⟨some "i", some "n"⟩], some "t"⟩ :
          PageResp OrganizationSummary)].map .ok) ++ [[]]) ∧
    ((∀ p ∈ [(⟨[(⟨some "i", some "n"⟩ : ProjectSummary)], some "t"⟩ :
        PageResp ProjectSummary)], p.nextToken.isSome) ∧
      listProjects "org1" ([(⟨[⟨some "i", some "n"⟩], some "t"⟩ :
          PageResp ProjectSummary)].map .ok ++ .error () :: []) =
        listProjects "org1" ([(⟨[⟨some "i", some "n"⟩], some "t"⟩ :
          PageResp ProjectSummary)].map .ok) ++ [[]]) ∧
    ((∀ p ∈ [(⟨[(⟨some "i", some "n"⟩ : RepoSummary)], some "t"⟩ :
        PageResp RepoSummary)], p.nextToken.isSome) ∧
      listRepos "org1" "proj1" ([(⟨[⟨some "i", some "n"⟩], some "t"⟩ :
          PageResp RepoSummary)].map .ok ++ .error () :: []) =
        listRepos "org1" "proj1" ([(⟨[⟨some "i", some "n"⟩], some "t"⟩ :
          PageResp RepoSummary)].map .ok) ++ [[]]) ∧
    ((∀ p ∈ [(⟨[(⟨some "i", some "RUNNING"⟩ :
        DevelopmentWorkspaceSummary)], some "t"⟩ :
        PageResp DevelopmentWorkspaceSummary)], p.nextToken.isSome) ∧
      listDevEnvs sampleProj ([(⟨[⟨some "i", some "RUNNING"⟩], some "t"⟩ :
          PageResp DevelopmentWorkspaceSummary)].map .ok ++
            .error () :: []) =
        listDevEnvs sampleProj ([(⟨[⟨some "i", some "RUNNING"⟩],
          some "t"⟩ : PageResp DevelopmentWorkspaceSummary)].map .ok) ++
          [[]]) :=
  ⟨⟨by decide, listings_fail_soft.1 _ [] (by decide)⟩,
    ⟨by decide, listings_fail_soft.2.1 "org1" _ [] (by decide)⟩,
    ⟨by decide, listings_fail_soft.2.2.1 "org1" "proj1" _ [] (by decide)⟩,
    ⟨by decide, listings_fail_soft.2.2.2 sampleProj _ [] (by decide)⟩⟩

/-- C6 counterexample: a workspace summary with a missing `id` passes
through `intoDevelopmentWorkspace` (and hence the workspace listing)
with its `id` still missing, not defaulted to the empty string. -/
theorem listDevEnvs_no_defaulting :
    listDevEnvs sampleProj
        [.ok ⟨[(⟨none, none⟩ : DevelopmentWorkspaceSummary)], none⟩] =
      [[{ orgName := "org1", projectName := "proj1"
          id := none, status := none }]] ∧
    ({ orgName := "org1", projectName := "proj1", id := none
       status := none } : DevelopmentWorkspace).id ≠ some "" := by
  decide

/-- C6 amended: the org, project and repo listings default a missing
`id` to the empty string and a missing `name` to the string unknown and
never fail on the missing field; the workspace listing applies no such
defaulting, passing the summary fields through unchanged. -/
theorem listing_missing_field_defaults :
    (∀ o : OrganizationSummary,
      asCawsOrg o = ⟨o.id.getD "", o.name.getD "unknown"⟩) ∧
    (∀ (orgName : String) (s : ProjectSummary),
      listProjects orgName [.ok ⟨[s], none⟩] =
        [[⟨s.id.getD "", orgName, s.name.getD "unknown"⟩]]) ∧
    (∀ (orgName projName : String) (s : RepoSummary),
      listRepos orgName projName [.ok ⟨[s], none⟩] =
        [[⟨s.id.getD "", orgName, projName, s.name.getD "unknown"⟩]]) ∧
    (∀ (proj : CawsProject) (s : DevelopmentWorkspaceSummary),
      listDevEnvs proj [.ok ⟨[s], none⟩] =
        [[⟨proj.orgName, proj.name, s.id, s.status⟩]]) := by
  have hname : ∀ o : Option String,
      o.getD (o.getD "unknown") = o.getD "unknown" := by
    intro o
    cases o <;> rfl
  refine ⟨?_, ?_, ?_, ?_⟩
  · intro o
    simp [asCawsOrg, spreadString, hname o.name]
  · intro orgName s
    simp [listProjects, listPages, call, spreadString, hname s.name]
  · intro orgName projName s
    simp [listRepos, listPages, call, spreadString, hname s.name]
  · intro proj s
    simp [listDevEnvs, listPages, call, intoDevelopmentWorkspace]

/-- C7 counterexample: an empty-string bound user id is falsy in the
mismatch guard, so a response carrying a different identity is accepted
and the bound id is silently overwritten rather than rejected. -/
theorem verifySession_empty_bound_id_overwritten :
    (verifySession
        { regionCode := "r", endpoint := "e"
          sdkClient := { bearerToken := some "tok" }
          bearerToken := some "tok", userId := some ""
          userDetails := some
            { userId := "u1", userName := "n1", displayName := "d1"
              primaryEmail := "m1", version := "1" } }
        (.ok { identity := some "u2" }) (.error ())).result ≠
      .error .identityMismatch ∧
    (verifySession
        { regionCode := "r", endpoint := "e"
          sdkClient := { bearerToken := some "tok" }
          bearerToken := some "tok", userId := some ""
          userDetails := some
            { userId := "u1", userName := "n1", displayName := "d1"
              primaryEmail := "m1", version := "1" } }
        (.ok { identity := some "u2" }) (.error ())).state.userId =
      some "u2" := by
  decide

/-- C7 amended: with a non-empty previously bound user id, a response
carrying a different identity makes `verifySession` throw the
identity-mismatch error and leaves the whole state, in particular the
bound id, untouched; and a response lacking the `identity` field fails
with a validation error on that field. -/
theorem verifySession_identity_guard
    (st : ClientState) (u v : String)
    (dresp dresp2 : Except Unit GetUserDetailsResponse)
    (hbound : st.userId = some u) (hne : u ≠ "") (hmx : u ≠ v) :
    (verifySession st (.ok { identity := some v }) dresp =
      ⟨.error .identityMismatch, st, false⟩) ∧
    ((verifySession st (.ok { identity := none }) dresp2).result =
      .error (.validation "identity")) := by
  constructor
  · simp only [verifySession, call, assertHasProp]
    rw [if_pos]
    rw [hbound]
    simp [hne, hmx]
  · simp [verifySession, call, assertHasProp]

/-- C7 witness: bound id `u1`, server identity `u2`. -/
theorem verifySession_identity_guard_witness :
    ((({ regionCode := "r", endpoint := "e"
         sdkClient := { bearerToken := some "tok" }
         bearerToken := some "tok", userId := some "u1"
         userDetails := none } : ClientState)).userId = some "u1") ∧
    ("u1" ≠ "") ∧ ("u1" ≠ "u2") ∧
    (verifySession
        { regionCode := "r", endpoint := "e"
          sdkClient := { bearerToken := some "tok" }
          bearerToken := some "tok", userId := some "u1"
          userDetails := none }
        (.ok { identity := some "u2" }) (.error ()) =
      ⟨.error .identityMismatch,
        { regionCode := "r", endpoint := "e"
          sdkClient := { bearerToken := some "tok" }
          bearerToken := some "tok", userId := some "u1"
          userDetails := none }, false⟩) ∧
    ((verifySession
        { regionCode := "r", endpoint := "e"
          sdkClient := { bearerToken := some "tok" }
          bearerToken := some "tok", userId := some "u1"
          userDetails := none }
        (.ok { identity := none }) (.error ())).result =
      .error (.validation "identity")) :=
  ⟨by decide, by decide, by decide,
    (verifySession_identity_guard
      { regionCode := "r", endpoint := "e"
        sdkClient := { bearerToken := some "tok" }
        bearerToken := some "tok", userId := some "u1"
        userDetails := none }
      "u1" "u2" (.error ()) (.error ()) (by decide) (by decide)
      (by decide)).1,
    (verifySession_identity_guard
      { regionCode := "r", endpoint := "e"
        sdkClient := { bearerToken := some "tok" }
        bearerToken := some "tok", userId := some "u1"
        userDetails := none }
      "u1" "u2" (.error ()) (.error ()) (by decide) (by decide)
      (by decide)).2⟩

/-- C8: after any successful `verifySession`, a second call presented
with the same identity response returns the same `UserDetails`, leaves
the state unchanged, and issues no second remote user-details fetch,
whatever the second details outcome would have been. -/
theorem verifySession_idempotent_cached
    (st st1 : ClientState) (vresp : Except Unit VerifySessionResponse)
    (dresp dresp2 : Except Unit GetUserDetailsResponse)
    (d : UserDetails) (f1 : Bool)
    (h : verifySession st vresp dresp = ⟨.ok d, st1, f1⟩) :
    verifySession st1 vresp dresp2 = ⟨.ok d, st1, false⟩ := by
  match vresp with
  | .error u =>
    simp only [verifySession, call] at h
    cases h
  | .ok r =>
    match hident : r.identity with
    | none =>
      simp only [verifySession, call, assertHasProp, hident] at h
      cases h
    | some ident =>
      simp only [verifySession, call, assertHasProp, hident] at h ⊢
      by_cases hg : (match st.userId with
          | some u => decide (u ≠ "") && decide (u ≠ ident)
          | none => false) = true
      · rw [if_pos hg] at h
        cases h
      · rw [if_neg hg] at h
        have hids : st1.userId = some ident ∧ st1.userDetails = some d := by
          rcases hud : st.userDetails with _ | d0
          · rw [hud] at h
            rcases hgd : getUserDetails dresp with e | d1 <;> rw [hgd] at h
            · cases h
            · cases h
              exact ⟨rfl, rfl⟩
          · rw [hud] at h
            cases h
            exact ⟨rfl, rfl⟩
        have hguard2 : (match st1.userId with
            | some u => decide (u ≠ "") && decide (u ≠ ident)
            | none => false) = false := by
          rw [hids.1]
          simp
        rw [hguard2]
        simp only [Bool.false_eq_true, if_false]
        have hst1 : { st1 with userId := some ident } = st1 := by
          rcases hids with ⟨h1, _⟩
          cases st1
          simp only at h1
          simp [h1]
        rw [hst1, hids.2]

/-- C8 witness: a first call that fetches and caches the details, then a
second call with the same identity returning the cached record without a
fetch. -/
theorem verifySession_idempotent_cached_witness :
    (verifySession
        { regionCode := "r", endpoint := "e"
          sdkClient := { bearerToken := some "tok" }
          bearerToken := some "tok", userId := none, userDetails := none }
        (.ok { identity := some "u1" })
        (.ok { userId := some "u1", userName := some "n1"
               displayName := some "d1", primaryEmail := some "m1"
               version := some "1" }) =
      ⟨.ok { userId := "u1", userName := "n1", displayName := "d1"
             primaryEmail := "m1", version := "1" },
        { regionCode := "r", endpoint := "e"
          sdkClient := { bearerToken := some "tok" }
          bearerToken := some "tok", userId := some "u1"
          userDetails := some
            { userId := "u1", userName := "n1", displayName := "d1"
              primaryEmail := "m1", version := "1" } }, true⟩) ∧
    (verifySession
        { regionCode := "r", endpoint := "e"
          sdkClient := { bearerToken := some "tok" }
          bearerToken := some "tok", userId := some "u1"
          userDetails := some
            { userId := "u1", userName := "n1", displayName := "d1"
              primaryEmail := "m1", version := "1" } }
        (.ok { identity := some "u1" }) (.error ()) =
      ⟨.ok { userId := "u1", userName := "n1", displayName := "d1"
             primaryEmail := "m1", version := "1" },
        { regionCode := "r", endpoint := "e"
          sdkClient := { bearerToken := some "tok" }
          bearerToken := some "tok", userId := some "u1"
          userDetails := some
            { userId := "u1", userName := "n1", displayName := "d1"
              primaryEmail := "m1", version := "1" } }, false⟩) :=
  ⟨by decide,
    verifySession_idempotent_cached
      { regionCode := "r", endpoint := "e"
        sdkClient := { bearerToken := some "tok" }
        bearerToken := some "tok", userId := none, userDetails := none }
      { regionCode := "r", endpoint := "e"
        sdkClient := { bearerToken := some "tok" }
        bearerToken := some "tok", userId := some "u1"
        userDetails := some
          { userId := "u1", userName := "n1", displayName := "d1"
            primaryEmail := "m1", version := "1" } }
      (.ok { identity := some "u1" })
      (.ok { userId := some "u1", userName := some "n1"
             displayName := some "d1", primaryEmail := some "m1"
             version := some "1" })
      (.error ())
      { userId := "u1", userName := "n1", displayName := "d1"
        primaryEmail := "m1", version := "1" } true (by decide)⟩

/-- C9: listing resources of type `branch` fails with the explicit
not-supported error for every remote environment, so the result is
independent of the remote service and the same as on the empty
environment: no remote call is attempted and no silent empty result is
returned. -/
theorem listResources_branch_unsupported (env : RemoteEnv) :
    listResources env .branch =
      .error "Listing branches is not currently supported" ∧
    listResources env .branch = listResources RemoteEnv.empty .branch := by
  constructor <;> simp [listResources]

/-- C10: `setCredentials` with a raw id string replaces exactly the
bearer token, the rebuilt transport binding and the stored user id;
the cached `UserDetails`, the exposed identity, the region and the
endpoint are all unchanged, and the connected flag still reflects the
earlier cached details combined with the new token. -/
theorem setCredentials_raw_id_frame (st : ClientState) (tok i : String) :
    (setCredentials st tok (.str i)).userDetails = st.userDetails ∧
    identity (setCredentials st tok (.str i)) = identity st ∧
    (setCredentials st tok (.str i)).userId = some i ∧
    (setCredentials st tok (.str i)).bearerToken = some tok ∧
    (setCredentials st tok (.str i)).sdkClient =
      createCawsClient (some tok) ∧
    (setCredentials st tok (.str i)).regionCode = st.regionCode ∧
    (setCredentials st tok (.str i)).endpoint = st.endpoint ∧
    connected (setCredentials st tok (.str i)) =
      (decide (tok ≠ "") && st.userDetails.isSome) := by
  refine ⟨rfl, rfl, rfl, rfl, rfl, rfl, rfl, ?_⟩
  simp [connected, setCredentials]

end Caws
